import Mathlib

/-!
Shallow embedding of the snapx dependency-injection container
(`packages/core`: the `Container` class and the `Injectable` decorator),
with theorems checking the natural-language specification against it.

Modelling conventions:
* JavaScript `Map` objects become association lists with JS `Map`
  semantics: `set` updates an existing key in place (keeping its
  position) and appends a new key at the end; iteration follows this
  order, which matters for the cached-instance scan in `instantiate`.
* Object identity is modelled by an allocation counter: every object the
  container ever sees is an `Obj` carrying a numeric identity `oid` and
  a runtime class tag `ty` (used for `instanceof` checks).
* A resolver (`Function | object`) is either a factory that allocates a
  fresh object on each call, a factory that returns one fixed object, or
  a plain pre-built object; only the first two are JS functions.
* Thrown `Error(msg)` values become `Err.errMsg msg`; a JS `TypeError`
  (reading a property of `undefined`, or a rejected `defineProperty`)
  becomes `Err.typeError`.  The value `undefined` itself can be returned
  by `resolve`, so results are `Val` (`undef` or `obj`).
* The mutual recursion `resolve` / `instantiate` is fuelled; `Err.fuelOut`
  stands for the stack overflow a dependency cycle causes at runtime.
-/

namespace Snapx

/-- JS `Map.get` on an association list: first entry with the key. -/
def getA {κ α : Type} [DecidableEq κ] (l : List (κ × α)) (k : κ) : Option α :=
  match l with
  | [] => none
  | (k1, v1) :: rest => if k1 = k then some v1 else getA rest k

/-- JS `Map.set` on an association list: update in place or append. -/
def setA {κ α : Type} [DecidableEq κ] (l : List (κ × α)) (k : κ) (v : α) :
    List (κ × α) :=
  match l with
  | [] => [(k, v)]
  | (k1, v1) :: rest => if k1 = k then (k, v) :: rest else (k1, v1) :: setA rest k v

/-- Primitive constructor markers recognised by `Container.isPrimitive`
(`String`, `Number`, `Boolean`, `Symbol`, `BigInt`). -/
inductive PrimMarker where
  | str
  | num
  | boolean
  | sym
  | bigint
deriving DecidableEq, Repr

/-- The JS `name` property of a primitive constructor. -/
def PrimMarker.name : PrimMarker → String
  | .str => "String"
  | .num => "Number"
  | .boolean => "Boolean"
  | .sym => "Symbol"
  | .bigint => "BigInt"

/-- One entry of a `__dependencies` capability record: a primitive
constructor, `undefined` (no type information), or a class reference
(classes are identified by a numeric id). -/
inductive Dep where
  | prim : PrimMarker → Dep
  | noType : Dep
  | ty : Nat → Dep
deriving DecidableEq, Repr

/-- Static data of a class: its `name` property and its `__dependencies`
record (`none` when the class was never marked `Injectable`). -/
structure ClassInfo where
  name : String
  deps : Option (List Dep)
deriving DecidableEq, Repr

/-- A runtime object: `oid` is its identity (allocation number), `ty` the
class id its prototype chain matches for `instanceof` (`none` for plain
object literals). -/
structure Obj where
  oid : Nat
  ty : Option Nat
deriving DecidableEq, Repr

/-- A binding's resolver: a factory function allocating a fresh object of
a given runtime class on each call, a factory function returning one
fixed object, or a pre-built non-function value used as-is. -/
inductive Resolver where
  | factoryFresh : Option Nat → Resolver
  | factoryConst : Obj → Resolver
  | value : Obj → Resolver
deriving DecidableEq, Repr

/-- True exactly for the resolvers that are JS functions
(`typeof resolver === "function"`). -/
def Resolver.isFunction : Resolver → Bool
  | .factoryFresh _ => true
  | .factoryConst _ => true
  | .value _ => false

/-- The `{ resolver, singleton }` record stored by `singleton`,
`transient` and `context`. -/
structure BindingEntry where
  resolver : Resolver
  singleton : Bool
deriving DecidableEq, Repr

/-- A value stored in the `bindings` map: a plain entry, or the nested
`Map` a contextual group uses. -/
inductive Binding where
  | plain : BindingEntry → Binding
  | group : List (String × BindingEntry) → Binding
deriving DecidableEq, Repr

/-- A key of the `instances` cache: a string (plain key or composite
`key:contextKey`), or a class constructor. -/
inductive IKey where
  | str : String → IKey
  | ctor : Nat → IKey
deriving DecidableEq, Repr

/-- A key accepted by `resolve`: a symbolic string or a class reference. -/
inductive RKey where
  | str : String → RKey
  | ctor : Nat → RKey
deriving DecidableEq, Repr

/-- A value `resolve` can return: a real object, or JS `undefined`. -/
inductive Val where
  | undef : Val
  | obj : Obj → Val
deriving DecidableEq, Repr

/-- An abnormal outcome: a thrown `Error(msg)`, a thrown `TypeError`, or
exhaustion of the recursion fuel (the stack overflow a dependency cycle
causes in the source). -/
inductive Err where
  | errMsg : String → Err
  | typeError : Err
  | fuelOut : Err
deriving DecidableEq, Repr

/-- The mutable state of a `Container`, plus two observation devices:
`ctr`, the allocation counter giving fresh object identities, and
`constructions`, a log of every `new target(...deps)` call performed by
`instantiate` (class id and argument list, in order). -/
structure St where
  bindings : List (String × Binding)
  instances : List (IKey × Obj)
  ctr : Nat
  constructions : List (Nat × List Obj)
deriving DecidableEq, Repr

/-- A container as built by `new Container()`. -/
def St.empty : St := ⟨[], [], 0, []⟩

/-- Calling a resolver (`typeof r === "function" ? r() : r`): returns the
produced object, the successor state, and how many times a factory
function was actually invoked (0 or 1). -/
def invoke (r : Resolver) (s : St) : Obj × St × Nat :=
  match r with
  | .factoryFresh t => (⟨s.ctr, t⟩, { s with ctr := s.ctr + 1 }, 1)
  | .factoryConst o => (o, s, 1)
  | .value o => (o, s, 0)

/-- JS truthiness of the optional `contextKey` argument: absent or the
empty string are falsy. -/
def ckTruthy : Option String → Bool
  | none => false
  | some c => c ≠ ""

namespace Container

/-- Embeds `Container.singleton`: stores `{ resolver, singleton: true }`,
unconditionally overwriting whatever was bound before. -/
def singleton (s : St) (k : String) (r : Resolver) : St :=
  { s with bindings := setA s.bindings k (.plain ⟨r, true⟩) }

/-- Embeds `Container.transient`: stores `{ resolver, singleton: false }`,
unconditionally overwriting whatever was bound before. -/
def transient (s : St) (k : String) (r : Resolver) : St :=
  { s with bindings := setA s.bindings k (.plain ⟨r, false⟩) }

/-- Embeds `Container.context`: ensures the key holds a nested `Map`,
creating an empty one when the key is unbound, then throws when the
stored binding is not a `Map`, else sets the context entry.  The result
pairs the state after the call with the thrown message, if any (the
source mutates nothing before this throw). -/
def context (s : St) (k ck : String) (r : Resolver) (sing : Bool) :
    St × Option String :=
  let s1 := if (getA s.bindings k).isSome then s
            else { s with bindings := setA s.bindings k (.group []) }
  match getA s1.bindings k with
  | some (.group g) =>
      ({ s1 with bindings := setA s1.bindings k (.group (setA g ck ⟨r, sing⟩)) },
       none)
  | _ =>
      (s1, some ("Cannot add contextual binding for key \"" ++ k ++
        "\" because it is already bound as a non-contextual service."))

/-- Embeds `Container.has`. -/
def has (s : St) (k : String) : Bool :=
  (getA s.bindings k).isSome

/-- Embeds `Container.isPrimitive` (membership of
`[String, Number, Boolean, Symbol, BigInt, undefined]`). -/
def isPrimitive : Dep → Bool
  | .prim _ => true
  | .noType => true
  | .ty _ => false

/-- Embeds the `for (const instance of this.instances.values())` scan of
`instantiate`: the first cached instance, in map order, that satisfies
`instance instanceof dep`; keys are never consulted. -/
def findInstanceOf (ins : List (IKey × Obj)) (d : Nat) : Option Obj :=
  match ins with
  | [] => none
  | (_, o) :: rest => if o.ty = some d then some o else findInstanceOf rest d

/-- Embeds `Container.resolveContext`: composite cache key first, then
the group entry (throwing when absent), then resolver invocation with
caching only for singleton entries. -/
def resolveContext (s : St) (k ck : String) (g : List (String × BindingEntry)) :
    Except Err (Val × St × Nat) :=
  let composite := k ++ ":" ++ ck
  match getA s.instances (.str composite) with
  | some o => .ok (.obj o, s, 0)
  | none =>
    match getA g ck with
    | none =>
        .error (.errMsg ("Binding not found for key: \"" ++ k ++
          "\" with context \"" ++ ck ++ "\""))
    | some e =>
      match invoke e.resolver s with
      | (o, s1, n) =>
        if e.singleton then
          .ok (.obj o, { s1 with instances := setA s1.instances (.str composite) o }, n)
        else
          .ok (.obj o, s1, n)

/-- Embeds the symbolic-key part of `Container.resolve` (source lines
74-92): binding lookup, the `contextKey && binding instanceof Map`
dispatch, the instance-cache check, and resolver invocation.  When the
binding is a contextual `Map` but no truthy context key was supplied,
the source reads `binding.resolver` (which is `undefined` on a `Map`)
and returns it, caching nothing since `binding.singleton` is falsy. -/
def resolveKey (s : St) (k : String) (ck : Option String) :
    Except Err (Val × St × Nat) :=
  match getA s.bindings k with
  | none => .error (.errMsg ("Binding not found for key: \"" ++ k ++ "\""))
  | some b =>
    match ck, b with
    | some c, .group g =>
      if c ≠ "" then resolveContext s k c g
      else
        match getA s.instances (.str k) with
        | some o => .ok (.obj o, s, 0)
        | none => .ok (.undef, s, 0)
    | _, b =>
      match getA s.instances (.str k) with
      | some o => .ok (.obj o, s, 0)
      | none =>
        match b with
        | .group _ => .ok (.undef, s, 0)
        | .plain e =>
          match invoke e.resolver s with
          | (o, s1, n) =>
            if e.singleton then
              .ok (.obj o, { s1 with instances := setA s1.instances (.str k) o }, n)
            else
              .ok (.obj o, s1, n)

/-- Builds the message of the `Unresolvable dependency` error thrown by
`instantiate` for a primitive dependency: it interpolates the parameter
index, the dependency constructor name and the target class name. -/
def unresolvableMsg (i : Nat) (depName clsName : String) : String :=
  "Unresolvable dependency resolving [Parameter #" ++ toString i ++
    " [ type " ++ depName ++ " ]] in class " ++ clsName

mutual

/-- Embeds the `dependencies.map((dep, index) => ...)` body of
`Container.instantiate`, resolving the dependency list left to right
from parameter index `i`.  A primitive constructor throws the
`Unresolvable dependency` error; a dependency with no type information
(`undefined`) throws a `TypeError`, because the source evaluates
`dep.name` on `undefined` while building that message.  Otherwise the
cached-instance scan runs first and only on a miss is the dependency
class resolved recursively. -/
def resolveDepsF (classes : Nat → ClassInfo) (fuel : Nat) (t : Nat) :
    List Dep → Nat → St → Except Err (List Obj × St)
  | [], _, s => .ok ([], s)
  | d :: rest, i, s =>
    match d with
    | .prim p => .error (.errMsg (unresolvableMsg i p.name (classes t).name))
    | .noType => .error .typeError
    | .ty dt =>
      match Container.findInstanceOf s.instances dt with
      | some o =>
        match resolveDepsF classes fuel t rest (i + 1) s with
        | .error e => .error e
        | .ok (l, s2) => .ok (o :: l, s2)
      | none =>
        match resolveCtorF classes fuel dt s with
        | .error e => .error e
        | .ok (o, s1) =>
          match resolveDepsF classes fuel t rest (i + 1) s1 with
          | .error e => .error e
          | .ok (l, s2) => .ok (o :: l, s2)
termination_by l _ _ => (fuel, 1, l.length)

/-- Embeds `Container.instantiate`: reads `__dependencies` (an unmarked
class yields `[]`), resolves each dependency in declared order, then
performs `new target(...resolvedDeps)`, which allocates a fresh object
of class `t` and is recorded in the construction log. -/
def instantiateF (classes : Nat → ClassInfo) (fuel : Nat) (t : Nat) (s : St) :
    Except Err (Obj × St) :=
  match resolveDepsF classes fuel t ((classes t).deps.getD []) 0 s with
  | .error e => .error e
  | .ok (ds, s1) =>
    .ok (⟨s1.ctr, some t⟩,
      { s1 with ctr := s1.ctr + 1,
                constructions := s1.constructions ++ [(t, ds)] })
termination_by (fuel, 2, 0)

/-- Embeds the `typeof key === "function"` branch of `Container.resolve`:
return the instance cached under the class itself if present, else
instantiate and cache under the class.  Fuel bounds the recursion depth
through the dependency graph. -/
def resolveCtorF (classes : Nat → ClassInfo) (fuel : Nat) (t : Nat) (s : St) :
    Except Err (Obj × St) :=
  match fuel with
  | 0 => .error .fuelOut
  | f + 1 =>
    match getA s.instances (.ctor t) with
    | some o => .ok (o, s)
    | none =>
      match instantiateF classes f t s with
      | .error e => .error e
      | .ok (o, s1) =>
        .ok (o, { s1 with instances := setA s1.instances (.ctor t) o })
termination_by (fuel, 0, 0)

end

/-- Embeds `Container.resolve` in full: a class-reference key goes
through the cached/instantiate path (a supplied context key is never
looked at there), a string key through `resolveKey`.  The `Nat` in the
result counts resolver-factory invocations performed by the call. -/
def resolve (classes : Nat → ClassInfo) (fuel : Nat) (key : RKey)
    (ck : Option String) (s : St) : Except Err (Val × St × Nat) :=
  match key with
  | .ctor t =>
    match resolveCtorF classes fuel t s with
    | .error e => .error e
    | .ok (o, s1) => .ok (.obj o, s1, 0)
  | .str k => resolveKey s k ck

end Container

/-- An ECMAScript property descriptor for a data property, with the
stored value abstracted to the identity of the dependency array. -/
structure PropDesc where
  value : Nat
  writable : Bool
  enumerable : Bool
  configurable : Bool
deriving DecidableEq, Repr

/-- Embeds `Object.defineProperty` on a data property (the fragment of
ECMAScript `ValidateAndApplyPropertyDescriptor` the decorator can hit):
defining a fresh property succeeds; redefining a configurable one
succeeds; redefining a non-configurable one is rejected with a
`TypeError` unless nothing changes — in particular a non-configurable,
non-writable property rejects any distinct value. -/
def defineProperty (cur : Option PropDesc) (d : PropDesc) :
    Except Err PropDesc :=
  match cur with
  | none => .ok d
  | some c =>
    if c.configurable then .ok d
    else if d.configurable then .error .typeError
    else if d.enumerable ≠ c.enumerable then .error .typeError
    else if d.writable && !c.writable then .error .typeError
    else if !c.writable && d.value ≠ c.value then .error .typeError
    else .ok c

/-- Embeds the `Injectable` decorator body: it reads the
`design:paramtypes` metadata (here abstracted to the identity `deps` of
the dependency array about to be stored) and defines `__dependencies`
as a non-writable, non-enumerable, non-configurable property on the
class, whose current `__dependencies` descriptor is `cur`.  The result
is the descriptor stored afterwards, or the `TypeError` thrown by
`Object.defineProperty`. -/
def Injectable (deps : Nat) (cur : Option PropDesc) : Except Err PropDesc :=
  defineProperty cur ⟨deps, false, false, false⟩

@[simp]
theorem getA_setA_self {κ α : Type} [DecidableEq κ] (l : List (κ × α)) (k : κ)
    (v : α) : getA (setA l k v) k = some v := by
  induction l with
  | nil => simp [getA, setA]
  | cons hd tl ih =>
    by_cases h : hd.1 = k
    · simp [getA, setA, h]
    · simpa [getA, setA, h] using ih

theorem getA_setA_ne {κ α : Type} [DecidableEq κ] (l : List (κ × α))
    (k k1 : κ) (v : α) (h : k1 ≠ k) : getA (setA l k v) k1 = getA l k1 := by
  induction l with
  | nil => simp [getA, setA, Ne.symm h]
  | cons hd tl ih =>
    by_cases h1 : hd.1 = k
    · simp [getA, setA, h1, Ne.symm h]
    · by_cases h2 : hd.1 = k1
      · simp [getA, setA, h1, h2, h]
      · simp [getA, setA, h1, h2, ih]

/-- C1: for every key bound via `singleton`, and for every contextual
entry installed with singleton lifetime, resolution is idempotent: two
consecutive `resolve` calls with the same key (and, for contextual
bindings, the same context key) return the identical value, and a
resolver factory is invoked at most once in total across both calls. -/
theorem C1_singleton_idempotent (classes : Nat → ClassInfo) (fuel : Nat)
    (s : St) (k : String) :
    (∀ r, getA s.bindings k = some (.plain ⟨r, true⟩) →
      ∃ v s1 n1 s2 n2,
        Container.resolve classes fuel (.str k) none s = .ok (v, s1, n1) ∧
        Container.resolve classes fuel (.str k) none s1 = .ok (v, s2, n2) ∧
        n1 + n2 ≤ 1)
    ∧ (∀ ck g e, getA s.bindings k = some (.group g) → getA g ck = some e →
        e.singleton = true →
        ∃ v s1 n1 s2 n2,
          Container.resolve classes fuel (.str k) (some ck) s = .ok (v, s1, n1) ∧
          Container.resolve classes fuel (.str k) (some ck) s1 = .ok (v, s2, n2) ∧
          n1 + n2 ≤ 1) := by
  constructor
  · intro r hb
    cases hi : getA s.instances (IKey.str k) with
    | some o =>
      exact ⟨.obj o, s, 0, s, 0,
        by simp [Container.resolve, Container.resolveKey, hb, hi],
        by simp [Container.resolve, Container.resolveKey, hb, hi],
        by omega⟩
    | none =>
      cases r with
      | factoryFresh t =>
        refine ⟨.obj ⟨s.ctr, t⟩,
          { s with ctr := s.ctr + 1,
                   instances := setA s.instances (IKey.str k) ⟨s.ctr, t⟩ },
          1,
          { s with ctr := s.ctr + 1,
                   instances := setA s.instances (IKey.str k) ⟨s.ctr, t⟩ },
          0, ?_, ?_, ?_⟩
        · simp [Container.resolve, Container.resolveKey, hb, hi, invoke]
        · simp [Container.resolve, Container.resolveKey, hb, invoke]
        · omega
      | factoryConst o =>
        refine ⟨.obj o,
          { s with instances := setA s.instances (IKey.str k) o },
          1,
          { s with instances := setA s.instances (IKey.str k) o },
          0, ?_, ?_, ?_⟩
        · simp [Container.resolve, Container.resolveKey, hb, hi, invoke]
        · simp [Container.resolve, Container.resolveKey, hb, invoke]
        · omega
      | value o =>
        refine ⟨.obj o,
          { s with instances := setA s.instances (IKey.str k) o },
          0,
          { s with instances := setA s.instances (IKey.str k) o },
          0, ?_, ?_, ?_⟩
        · simp [Container.resolve, Container.resolveKey, hb, hi, invoke]
        · simp [Container.resolve, Container.resolveKey, hb, invoke]
        · omega
  · intro ck g e hb hg hs
    by_cases hck : ck = ""
    · subst hck
      cases hi : getA s.instances (IKey.str k) with
      | some o =>
        exact ⟨.obj o, s, 0, s, 0,
          by simp [Container.resolve, Container.resolveKey, hb, hi],
          by simp [Container.resolve, Container.resolveKey, hb, hi],
          by omega⟩
      | none =>
        exact ⟨.undef, s, 0, s, 0,
          by simp [Container.resolve, Container.resolveKey, hb, hi],
          by simp [Container.resolve, Container.resolveKey, hb, hi],
          by omega⟩
    · cases hcomp : getA s.instances (IKey.str (k ++ ":" ++ ck)) with
      | some o =>
        exact ⟨.obj o, s, 0, s, 0,
          by simp [Container.resolve, Container.resolveKey,
                Container.resolveContext, hb, hck, hcomp],
          by simp [Container.resolve, Container.resolveKey,
                Container.resolveContext, hb, hck, hcomp],
          by omega⟩
      | none =>
        obtain ⟨r, sg⟩ := e
        simp only [BindingEntry.singleton] at hs
        subst hs
        cases r with
        | factoryFresh t =>
          refine ⟨.obj ⟨s.ctr, t⟩,
            { s with ctr := s.ctr + 1,
                     instances := setA s.instances
                       (IKey.str (k ++ ":" ++ ck)) ⟨s.ctr, t⟩ },
            1,
            { s with ctr := s.ctr + 1,
                     instances := setA s.instances
                       (IKey.str (k ++ ":" ++ ck)) ⟨s.ctr, t⟩ },
            0, ?_, ?_, ?_⟩
          · simp [Container.resolve, Container.resolveKey,
              Container.resolveContext, hb, hck, hcomp, hg, invoke]
          · simp [Container.resolve, Container.resolveKey,
              Container.resolveContext, hb, hck, invoke]
          · omega
        | factoryConst o =>
          refine ⟨.obj o,
            { s with instances := setA s.instances
                       (IKey.str (k ++ ":" ++ ck)) o },
            1,
            { s with instances := setA s.instances
                       (IKey.str (k ++ ":" ++ ck)) o },
            0, ?_, ?_, ?_⟩
          · simp [Container.resolve, Container.resolveKey,
              Container.resolveContext, hb, hck, hcomp, hg, invoke]
          · simp [Container.resolve, Container.resolveKey,
              Container.resolveContext, hb, hck, invoke]
          · omega
        | value o =>
          refine ⟨.obj o,
            { s with instances := setA s.instances
                       (IKey.str (k ++ ":" ++ ck)) o },
            0,
            { s with instances := setA s.instances
                       (IKey.str (k ++ ":" ++ ck)) o },
            0, ?_, ?_, ?_⟩
          · simp [Container.resolve, Container.resolveKey,
              Container.resolveContext, hb, hck, hcomp, hg, invoke]
          · simp [Container.resolve, Container.resolveKey,
              Container.resolveContext, hb, hck, invoke]
          · omega

/-- Witness for C1: a fresh container holding a plain singleton under
`"log"` and, separately, one holding a contextual singleton entry
`("db", "a")`, each resolved twice. -/
theorem C1_singleton_idempotent_witness :
    (∃ v s1 n1 s2 n2,
      Container.resolve (fun _ => ⟨"", none⟩) 1 (.str "log") none
        (Container.singleton St.empty "log" (.factoryFresh none)) =
          .ok (v, s1, n1) ∧
      Container.resolve (fun _ => ⟨"", none⟩) 1 (.str "log") none s1 =
          .ok (v, s2, n2) ∧
      n1 + n2 ≤ 1)
    ∧ (∃ v s1 n1 s2 n2,
      Container.resolve (fun _ => ⟨"", none⟩) 1 (.str "db") (some "a")
        (Container.context St.empty "db" "a" (.factoryFresh (some 3)) true).1 =
          .ok (v, s1, n1) ∧
      Container.resolve (fun _ => ⟨"", none⟩) 1 (.str "db") (some "a") s1 =
          .ok (v, s2, n2) ∧
      n1 + n2 ≤ 1) :=
  ⟨(C1_singleton_idempotent (fun _ => ⟨"", none⟩) 1
      (Container.singleton St.empty "log" (.factoryFresh none)) "log").1
      (.factoryFresh none) (by decide),
   (C1_singleton_idempotent (fun _ => ⟨"", none⟩) 1
      (Container.context St.empty "db" "a" (.factoryFresh (some 3)) true).1
      "db").2
      "a" [("a", ⟨.factoryFresh (some 3), true⟩)]
      ⟨.factoryFresh (some 3), true⟩ (by decide) (by decide) (by decide)⟩

/-- C2, counterexample: a key is first bound `singleton` and resolved
(caching object 0 under `"k"`), then re-bound `transient`.  The next
`resolve("k")` reads the instance cache and returns the old cached
object with zero resolver invocations and an unchanged state, so the
transient binding neither invokes its resolver nor yields distinct
instances on consecutive calls — the claim fails on this state. -/
theorem C2_transient_cache_counterexample :
    Container.resolve (fun _ => ⟨"", none⟩) 1 (.str "k") none
        (Container.singleton St.empty "k" (.factoryFresh none)) =
      .ok (.obj ⟨0, none⟩,
        ⟨[("k", .plain ⟨.factoryFresh none, true⟩)],
         [(.str "k", ⟨0, none⟩)], 1, []⟩, 1)
    ∧ Container.transient
        ⟨[("k", .plain ⟨.factoryFresh none, true⟩)],
         [(.str "k", ⟨0, none⟩)], 1, []⟩ "k" (.factoryFresh none) =
      ⟨[("k", .plain ⟨.factoryFresh none, false⟩)],
       [(.str "k", ⟨0, none⟩)], 1, []⟩
    ∧ Container.resolve (fun _ => ⟨"", none⟩) 1 (.str "k") none
        ⟨[("k", .plain ⟨.factoryFresh none, false⟩)],
         [(.str "k", ⟨0, none⟩)], 1, []⟩ =
      .ok (.obj ⟨0, none⟩,
        ⟨[("k", .plain ⟨.factoryFresh none, false⟩)],
         [(.str "k", ⟨0, none⟩)], 1, []⟩, 0) := by
  refine ⟨?_, ?_, ?_⟩ <;> rfl

/-- C2, amended: in container states whose instance cache has no entry
under the key, a transient binding invokes its resolver on every
`resolve(key)` call (once per call when the resolver is a function) and
never writes the instance cache; with a fresh-object factory two
consecutive `resolve(key)` calls return distinct instances. -/
theorem C2_transient_fresh (classes : Nat → ClassInfo) (fuel : Nat)
    (s : St) (k : String) :
    (∀ r, getA s.bindings k = some (.plain ⟨r, false⟩) →
      getA s.instances (IKey.str k) = none →
      ∃ o s1 n,
        Container.resolve classes fuel (.str k) none s = .ok (.obj o, s1, n) ∧
        s1.instances = s.instances ∧
        (r.isFunction = true → n = 1))
    ∧ (∀ t, getA s.bindings k = some (.plain ⟨.factoryFresh t, false⟩) →
      getA s.instances (IKey.str k) = none →
      ∃ o1 s1 o2 s2,
        Container.resolve classes fuel (.str k) none s = .ok (.obj o1, s1, 1) ∧
        Container.resolve classes fuel (.str k) none s1 = .ok (.obj o2, s2, 1) ∧
        o1 ≠ o2) := by
  constructor
  · intro r hb hi
    cases r with
    | factoryFresh t =>
      exact ⟨⟨s.ctr, t⟩, { s with ctr := s.ctr + 1 }, 1,
        by simp [Container.resolve, Container.resolveKey, hb, hi, invoke],
        rfl, fun _ => rfl⟩
    | factoryConst o =>
      exact ⟨o, s, 1,
        by simp [Container.resolve, Container.resolveKey, hb, hi, invoke],
        rfl, fun _ => rfl⟩
    | value o =>
      exact ⟨o, s, 0,
        by simp [Container.resolve, Container.resolveKey, hb, hi, invoke],
        rfl, fun h => by simp [Resolver.isFunction] at h⟩
  · intro t hb hi
    refine ⟨⟨s.ctr, t⟩, { s with ctr := s.ctr + 1 }, ⟨s.ctr + 1, t⟩,
      { s with ctr := s.ctr + 2 }, ?_, ?_, ?_⟩
    · simp [Container.resolve, Container.resolveKey, hb, hi, invoke]
    · simp [Container.resolve, Container.resolveKey, hb, hi, invoke]
    · intro h
      exact absurd (congrArg Obj.oid h) (by simp)

/-- Witness for the amended C2 at a concrete container: a fresh
container with a transient fresh-factory binding under `"job"`. -/
theorem C2_transient_fresh_witness :
    ∃ o1 s1 o2 s2,
      Container.resolve (fun _ => ⟨"", none⟩) 1 (.str "job") none
        (Container.transient St.empty "job" (.factoryFresh none)) =
          .ok (.obj o1, s1, 1) ∧
      Container.resolve (fun _ => ⟨"", none⟩) 1 (.str "job") none s1 =
          .ok (.obj o2, s2, 1) ∧
      o1 ≠ o2 :=
  (C2_transient_fresh (fun _ => ⟨"", none⟩) 1
      (Container.transient St.empty "job" (.factoryFresh none)) "job").2
    none (by decide) (by decide)

/-- C3, behaviour at the failing input: with `"db"` holding a contextual
group (entry `"mysql"`), `resolve("db")` without a context key does not
throw.  The `contextKey && binding instanceof Map` guard is false, the
plain path reads `binding.resolver` on the nested `Map` — which is
`undefined` — and returns it, caching nothing; the claimed
missing-context error is never produced. -/
theorem C3_missing_context_returns_undefined :
    Container.context St.empty "db" "mysql" (.factoryFresh none) true =
      (⟨[("db", .group [("mysql", ⟨.factoryFresh none, true⟩)])], [], 0, []⟩,
       none)
    ∧ Container.resolve (fun _ => ⟨"", none⟩) 1 (.str "db") none
        ⟨[("db", .group [("mysql", ⟨.factoryFresh none, true⟩)])], [], 0, []⟩ =
      .ok (.undef,
        ⟨[("db", .group [("mysql", ⟨.factoryFresh none, true⟩)])], [], 0, []⟩,
        0) :=
  ⟨rfl, rfl⟩

/-- Helper: a successful class-reference resolution always leaves the
produced instance cached under the class itself. -/
theorem resolveCtorF_ok_cached (classes : Nat → ClassInfo) (fuel t : Nat)
    (s : St) (o : Obj) (s1 : St)
    (h : Container.resolveCtorF classes fuel t s = .ok (o, s1)) :
    getA s1.instances (IKey.ctor t) = some o := by
  cases fuel with
  | zero => simp [Container.resolveCtorF] at h
  | succ f =>
    rw [Container.resolveCtorF] at h
    cases hi : getA s.instances (IKey.ctor t) with
    | some o1 =>
      rw [hi] at h
      cases h
      exact hi
    | none =>
      rw [hi] at h
      cases hins : Container.instantiateF classes f t s with
      | error e => rw [hins] at h; cases h
      | ok p =>
        rw [hins] at h
        cases h
        simp

/-- C4: type-reference resolution.  A supplied context key is never
looked at; an instance cached under the exact class is returned with the
state untouched; on a cache miss a successful automatic construction is
cached under the class and returned; and a repeat of any successful
resolve returns the identical instance from the cache, doing nothing. -/
theorem C4_type_reference_resolution (classes : Nat → ClassInfo)
    (fuel t : Nat) (s : St) (ck : Option String) :
    Container.resolve classes fuel (.ctor t) ck s =
      Container.resolve classes fuel (.ctor t) none s
    ∧ (∀ o, getA s.instances (IKey.ctor t) = some o →
        Container.resolve classes (fuel + 1) (.ctor t) ck s = .ok (.obj o, s, 0))
    ∧ (getA s.instances (IKey.ctor t) = none →
        ∀ o s1, Container.instantiateF classes fuel t s = .ok (o, s1) →
          Container.resolve classes (fuel + 1) (.ctor t) ck s =
            .ok (.obj o,
              { s1 with instances := setA s1.instances (IKey.ctor t) o }, 0))
    ∧ (∀ v s1 n1,
        Container.resolve classes (fuel + 1) (.ctor t) ck s = .ok (v, s1, n1) →
        Container.resolve classes (fuel + 1) (.ctor t) ck s1 =
          .ok (v, s1, 0)) := by
  refine ⟨rfl, ?_, ?_, ?_⟩
  · intro o hi
    simp [Container.resolve, Container.resolveCtorF, hi]
  · intro hi o s1 hins
    simp [Container.resolve, Container.resolveCtorF, hi, hins]
  · intro v s1 n1 h
    rw [Container.resolve] at h
    cases hr : Container.resolveCtorF classes (fuel + 1) t s with
    | error e => rw [hr] at h; cases h
    | ok p =>
      rw [hr] at h
      cases h
      have hc := resolveCtorF_ok_cached classes (fuel + 1) t s p.1 p.2 (by
        rw [hr])
      simp [Container.resolve, Container.resolveCtorF, hc]

/-- Shared concrete class table: class 0 is `A` with no constructor
dependencies, class 1 is `B` depending on `A`. -/
def classesAB : Nat → ClassInfo := fun n =>
  if n = 0 then ⟨"A", some []⟩
  else if n = 1 then ⟨"B", some [.ty 0]⟩
  else ⟨"", none⟩

/-- Witness for C4: resolving class `A` by reference in a fresh
container constructs it, caches it under the class, and ignores the
supplied context key. -/
theorem C4_type_reference_resolution_witness :
    Container.resolve classesAB 1 (.ctor 0) (some "ctx") St.empty =
      .ok (.obj ⟨0, some 0⟩, ⟨[], [(.ctor 0, ⟨0, some 0⟩)], 1, [(0, [])]⟩, 0) :=
  (C4_type_reference_resolution classesAB 0 0 St.empty (some "ctx")).2.2.1
    (by decide) ⟨0, some 0⟩ ⟨[], [], 1, [(0, [])]⟩ (by
      simp [Container.instantiateF, Container.resolveDepsF, classesAB,
        St.empty])

/-- C5, counterexample: a dependency slot with absent type information
(`undefined`) is in the primitive set, but the source then evaluates
`dep.name` on `undefined` while interpolating the error message, so
construction throws a bare `TypeError` — not an `Unresolvable
dependency` error, and with no message naming the parameter index, a
dependency type or the class under construction. -/
theorem C5_noType_counterexample :
    Container.instantiateF (fun _ => ⟨"C", some [.noType]⟩) 1 0 St.empty =
      .error .typeError
    ∧ ∀ m, Container.instantiateF (fun _ => ⟨"C", some [.noType]⟩) 1 0
        St.empty ≠ .error (.errMsg m) := by
  have h : Container.instantiateF (fun _ => ⟨"C", some [.noType]⟩) 1 0
      St.empty = .error .typeError := by
    simp [Container.instantiateF, Container.resolveDepsF]
  exact ⟨h, fun m hm => by rw [h] at hm; cases hm⟩

/-- C5, amended: a constructor dependency whose capability-record entry
is one of the five primitive constructor markers makes construction fail
immediately with the `Unresolvable dependency` error whose message
interpolates the parameter index, the dependency constructor's name and
the name of the class being constructed; an entry with absent type
information also fails immediately, but with a `TypeError` raised while
building that message, which therefore names none of the three. -/
theorem C5_primitive_dependency_error (classes : Nat → ClassInfo)
    (fuel t i : Nat) (p : PrimMarker) (rest : List Dep) (s : St) :
    Container.resolveDepsF classes fuel t (.prim p :: rest) i s =
      .error (.errMsg ("Unresolvable dependency resolving [Parameter #" ++
        toString i ++ " [ type " ++ p.name ++ " ]] in class " ++
        (classes t).name))
    ∧ Container.resolveDepsF classes fuel t (.noType :: rest) i s =
        .error .typeError
    ∧ ((classes t).deps = some (.prim p :: rest) →
        Container.instantiateF classes fuel t s =
          .error (.errMsg ("Unresolvable dependency resolving [Parameter #" ++
            toString 0 ++ " [ type " ++ p.name ++ " ]] in class " ++
            (classes t).name))) := by
  refine ⟨?_, ?_, ?_⟩
  · simp [Container.resolveDepsF, Container.unresolvableMsg]
  · simp [Container.resolveDepsF]
  · intro hd
    simp [Container.instantiateF, Container.resolveDepsF, hd,
      Container.unresolvableMsg]

/-- Witness for the amended C5: class 2 (`"Svc"`) declares a `String`
dependency at parameter 0; construction fails with the fully
interpolated message. -/
theorem C5_primitive_dependency_error_witness :
    Container.instantiateF (fun _ => ⟨"Svc", some [.prim .str]⟩) 1 2
        St.empty =
      .error (.errMsg ("Unresolvable dependency resolving [Parameter #" ++
        toString 0 ++ " [ type " ++ PrimMarker.name .str ++
        " ]] in class " ++ "Svc")) :=
  (C5_primitive_dependency_error (fun _ => ⟨"Svc", some [.prim .str]⟩)
      1 2 0 .str [] St.empty).2.2 rfl

/-- Helper: the cached-instance scan of `instantiate` only inspects the
stored values in map order; the keys entries are cached under never
influence the outcome. -/
theorem findInstanceOf_keys_irrelevant (d : Nat) :
    ∀ ins1 ins2 : List (IKey × Obj),
      ins1.map Prod.snd = ins2.map Prod.snd →
      Container.findInstanceOf ins1 d = Container.findInstanceOf ins2 d := by
  intro ins1
  induction ins1 with
  | nil =>
    intro ins2 h
    cases ins2 with
    | nil => rfl
    | cons hd tl => simp at h
  | cons hd tl ih =>
    intro ins2 h
    cases ins2 with
    | nil => simp at h
    | cons hd2 tl2 =>
      simp only [List.map_cons, List.cons.injEq] at h
      obtain ⟨k1, o1⟩ := hd
      obtain ⟨k2, o2⟩ := hd2
      simp only at h
      simp only [Container.findInstanceOf, h.1, ih tl2 h.2]

/-- Helper: a scan hit is an instance of the wanted class that sits in
the cache under some key. -/
theorem findInstanceOf_mem (d : Nat) :
    ∀ (ins : List (IKey × Obj)) (o : Obj),
      Container.findInstanceOf ins d = some o →
      o.ty = some d ∧ ∃ k, (k, o) ∈ ins := by
  intro ins
  induction ins with
  | nil => intro o h; simp [Container.findInstanceOf] at h
  | cons hd tl ih =>
    intro o h
    obtain ⟨k1, o1⟩ := hd
    simp only [Container.findInstanceOf] at h
    by_cases ht : o1.ty = some d
    · rw [if_pos ht] at h
      cases h
      exact ⟨ht, k1, by simp⟩
    · rw [if_neg ht] at h
      obtain ⟨hty, k2, hk⟩ := ih o h
      exact ⟨hty, k2, by simp [hk]⟩

/-- C6: during automatic construction, each class-typed dependency is
first looked up among the already-cached instances — scanning values in
map order and ignoring the keys they were cached under — and a hit is
reused as-is with no recursive resolution; only on a miss is the
dependency class itself resolved; finally the constructor is invoked
with the resolved dependencies in declared order. -/
theorem C6_opportunistic_reuse (classes : Nat → ClassInfo)
    (fuel t dt i : Nat) (rest : List Dep) (s : St) :
    (∀ ins1 ins2 : List (IKey × Obj),
      ins1.map Prod.snd = ins2.map Prod.snd →
      Container.findInstanceOf ins1 dt = Container.findInstanceOf ins2 dt)
    ∧ (∀ o, Container.findInstanceOf s.instances dt = some o →
        o.ty = some dt ∧ ∃ k, (k, o) ∈ s.instances)
    ∧ (∀ o, Container.findInstanceOf s.instances dt = some o →
        Container.resolveDepsF classes fuel t (.ty dt :: rest) i s =
          (Container.resolveDepsF classes fuel t rest (i + 1) s).map
            (fun q => (o :: q.1, q.2)))
    ∧ (Container.findInstanceOf s.instances dt = none →
        Container.resolveDepsF classes fuel t (.ty dt :: rest) i s =
          match Container.resolveCtorF classes fuel dt s with
          | .error e => .error e
          | .ok (o, s1) =>
            (Container.resolveDepsF classes fuel t rest (i + 1) s1).map
              (fun q => (o :: q.1, q.2)))
    ∧ (∀ o s1, Container.instantiateF classes fuel t s = .ok (o, s1) →
        ∃ ds s0,
          Container.resolveDepsF classes fuel t ((classes t).deps.getD [])
              0 s = .ok (ds, s0) ∧
          o = ⟨s0.ctr, some t⟩ ∧
          s1 = { s0 with
                  ctr := s0.ctr + 1,
                  constructions := s0.constructions ++ [(t, ds)] }) := by
  refine ⟨findInstanceOf_keys_irrelevant dt, findInstanceOf_mem dt s.instances,
    ?_, ?_, ?_⟩
  · intro o h
    cases hres : Container.resolveDepsF classes fuel t rest (i + 1) s with
    | error e => simp [Container.resolveDepsF, h, hres, Except.map]
    | ok q => simp [Container.resolveDepsF, h, hres, Except.map]
  · intro h
    cases hc : Container.resolveCtorF classes fuel dt s with
    | error e => simp [Container.resolveDepsF, h, hc]
    | ok p =>
      cases hres : Container.resolveDepsF classes fuel t rest (i + 1) p.2 with
      | error e => simp [Container.resolveDepsF, h, hc, hres, Except.map]
      | ok q => simp [Container.resolveDepsF, h, hc, hres, Except.map]
  · intro o s1 h
    rw [Container.instantiateF] at h
    cases hres : Container.resolveDepsF classes fuel t
        ((classes t).deps.getD []) 0 s with
    | error e => rw [hres] at h; cases h
    | ok q =>
      obtain ⟨ds, s0⟩ := q
      rw [hres] at h
      cases h
      exact ⟨ds, s0, hres.symm ▸ rfl, rfl, rfl⟩

/-- Witness for C6: class `B` (id 1) depends on class `A` (id 0); the
container already caches an `A` instance under the unrelated string key
`"a"`, and constructing `B` reuses exactly that instance as constructor
argument, without resolving `A` again. -/
theorem C6_opportunistic_reuse_witness :
    Container.resolveDepsF classesAB 1 1 [.ty 0] 0
        ⟨[], [(.str "a", ⟨7, some 0⟩)], 9, []⟩ =
      .ok ([⟨7, some 0⟩], ⟨[], [(.str "a", ⟨7, some 0⟩)], 9, []⟩)
    ∧ Container.instantiateF classesAB 1 1
        ⟨[], [(.str "a", ⟨7, some 0⟩)], 9, []⟩ =
      .ok (⟨9, some 1⟩,
        ⟨[], [(.str "a", ⟨7, some 0⟩)], 10, [(1, [⟨7, some 0⟩])]⟩) := by
  have h1 := (C6_opportunistic_reuse classesAB 1 1 0 0 []
      ⟨[], [(.str "a", ⟨7, some 0⟩)], 9, []⟩).2.2.1 ⟨7, some 0⟩ (by
        simp [Container.findInstanceOf])
  constructor
  · rw [h1]
    simp [Container.resolveDepsF, Except.map]
  · rw [Container.instantiateF]
    have h2 : Container.resolveDepsF classesAB 1 1
        ((classesAB 1).deps.getD []) 0
        ⟨[], [(.str "a", ⟨7, some 0⟩)], 9, []⟩ =
        .ok ([⟨7, some 0⟩], ⟨[], [(.str "a", ⟨7, some 0⟩)], 9, []⟩) := by
      rw [show (classesAB 1).deps.getD [] = [Dep.ty 0] from rfl, h1]
      simp [Container.resolveDepsF, Except.map]
    rw [h2]
    rfl

/-- C7, counterexample: after installing a contextual group under `"k"`,
calling `singleton("k", …)` does not fail — it silently replaces the
whole group with a plain binding, so the key's classification changes
from contextual to plain. -/
theorem C7_reclassification_counterexample :
    (Container.context St.empty "k" "a" (.factoryFresh none) true).2 = none
    ∧ getA (Container.context St.empty "k" "a"
        (.factoryFresh none) true).1.bindings "k" =
        some (.group [("a", ⟨.factoryFresh none, true⟩)])
    ∧ Container.singleton
        (Container.context St.empty "k" "a" (.factoryFresh none) true).1
        "k" (.factoryConst ⟨5, none⟩) =
      ⟨[("k", .plain ⟨.factoryConst ⟨5, none⟩, true⟩)], [], 0, []⟩ :=
  ⟨rfl, rfl, rfl⟩

/-- C7, amended: classification is protected in one direction only.
`context` on a key holding a plain binding fails with the configuration
error and leaves the state unchanged, so a plain key never becomes
contextual; but `singleton` and `transient` never check and replace a
contextual group with a plain binding, so a contextual key silently
becomes plain. -/
theorem C7_classification_one_directional (s : St) (k ck : String)
    (r : Resolver) (sing : Bool) :
    (∀ e, getA s.bindings k = some (.plain e) →
      Container.context s k ck r sing =
        (s, some ("Cannot add contextual binding for key \"" ++ k ++
          "\" because it is already bound as a non-contextual service.")))
    ∧ (∀ g, getA s.bindings k = some (.group g) →
        getA (Container.singleton s k r).bindings k =
            some (.plain ⟨r, true⟩) ∧
        getA (Container.transient s k r).bindings k =
            some (.plain ⟨r, false⟩)) := by
  constructor
  · intro e hb
    simp [Container.context, hb]
  · intro g _
    exact ⟨by simp [Container.singleton], by simp [Container.transient]⟩

/-- Witness for the amended C7: a container with `"k"` plain-bound
rejects `context`, and one with `"k"` contextual lets `singleton`
re-classify it. -/
theorem C7_classification_one_directional_witness :
    Container.context
        ⟨[("k", .plain ⟨.value ⟨4, none⟩, true⟩)], [], 0, []⟩
        "k" "a" (.factoryFresh none) true =
      (⟨[("k", .plain ⟨.value ⟨4, none⟩, true⟩)], [], 0, []⟩,
       some ("Cannot add contextual binding for key \"" ++ "k" ++
         "\" because it is already bound as a non-contextual service."))
    ∧ getA (Container.singleton
        ⟨[("k", .group [])], [], 0, []⟩ "k" (.factoryFresh none)).bindings
        "k" = some (.plain ⟨.factoryFresh none, true⟩) :=
  ⟨(C7_classification_one_directional
      ⟨[("k", .plain ⟨.value ⟨4, none⟩, true⟩)], [], 0, []⟩
      "k" "a" (.factoryFresh none) true).1 ⟨.value ⟨4, none⟩, true⟩
      (by decide),
   ((C7_classification_one_directional
      ⟨[("k", .group [])], [], 0, []⟩
      "k" "a" (.factoryFresh none) true).2 [] (by decide)).1⟩

/-- C8: installing a contextual binding on a key that already holds a
plain binding throws the configuration error before any mutation: the
call returns the original state, with the plain binding intact and no
contextual entry added. -/
theorem C8_context_on_plain_fails_unchanged (s : St) (k ck : String)
    (r : Resolver) (sing : Bool) (e : BindingEntry)
    (hb : getA s.bindings k = some (.plain e)) :
    Container.context s k ck r sing =
      (s, some ("Cannot add contextual binding for key \"" ++ k ++
        "\" because it is already bound as a non-contextual service."))
    ∧ getA (Container.context s k ck r sing).1.bindings k =
        some (.plain e) := by
  have h1 : Container.context s k ck r sing =
      (s, some ("Cannot add contextual binding for key \"" ++ k ++
        "\" because it is already bound as a non-contextual service.")) := by
    simp [Container.context, hb]
  exact ⟨h1, by rw [h1]; exact hb⟩

/-- Witness for C8: `"mail"` is plain-bound, then a contextual install
on it fails and the container is unchanged. -/
theorem C8_context_on_plain_fails_unchanged_witness :
    Container.context
        (Container.singleton St.empty "mail" (.value ⟨3, none⟩))
        "mail" "smtp" (.factoryFresh none) true =
      (Container.singleton St.empty "mail" (.value ⟨3, none⟩),
       some ("Cannot add contextual binding for key \"" ++ "mail" ++
         "\" because it is already bound as a non-contextual service.")) :=
  (C8_context_on_plain_fails_unchanged
      (Container.singleton St.empty "mail" (.value ⟨3, none⟩))
      "mail" "smtp" (.factoryFresh none) true ⟨.value ⟨3, none⟩, true⟩
      (by decide)).1

/-- C9, counterexample: re-marking an already marked class with a
dependency record distinct from the stored one makes
`Object.defineProperty` throw a `TypeError` — the stored property is
non-configurable and non-writable — so the marker can fail and the
record is not overwritten. -/
theorem C9_injectable_remark_counterexample :
    Injectable 1 (some ⟨0, false, false, false⟩) = .error .typeError := rfl

/-- C9, amended: the first marking stores the captured record as a
non-writable, non-enumerable, non-configurable property; re-marking with
the identical record value is a no-op returning the stored descriptor;
re-marking with a distinct record value throws a `TypeError` and the
stored record stays as it was — the first declaration wins, and no
merging occurs. -/
theorem C9_injectable_first_wins (d d1 : Nat) :
    Injectable d none = .ok ⟨d, false, false, false⟩
    ∧ Injectable d (some ⟨d, false, false, false⟩) =
        .ok ⟨d, false, false, false⟩
    ∧ (d1 ≠ d →
        Injectable d1 (some ⟨d, false, false, false⟩) =
          .error .typeError) := by
  refine ⟨rfl, by simp [Injectable, defineProperty], ?_⟩
  intro h
  simp [Injectable, defineProperty, h]

/-- Witness for the amended C9 at record values 0 and 1. -/
theorem C9_injectable_first_wins_witness :
    Injectable 1 (some ⟨0, false, false, false⟩) = .error .typeError :=
  (C9_injectable_first_wins 0 1).2.2 (by decide)

/-- C10: plain string cache keys and contextual composite cache keys
share one namespace, and contextual resolution consults that cache
before the group entry: whenever `key` holds a contextual group and some
instance is cached under the literal string `key + ":" + contextKey` —
however it got there — `resolve(key, contextKey)` returns that instance
unchanged, even when the group holds no entry (or a different one) for
that context key. -/
theorem C10_shared_cache_namespace (classes : Nat → ClassInfo) (fuel : Nat)
    (s : St) (k ck : String) (g : List (String × BindingEntry)) (o : Obj)
    (hck : ck ≠ "")
    (hb : getA s.bindings k = some (.group g))
    (hc : getA s.instances (IKey.str (k ++ ":" ++ ck)) = some o) :
    Container.resolve classes fuel (.str k) (some ck) s =
      .ok (.obj o, s, 0) := by
  simp [Container.resolve, Container.resolveKey, Container.resolveContext,
    hb, hck, hc]

/-- Witness for C10, reached through the public API: a plain singleton
under the literal key `"a:b"` is resolved (caching object 5 under the
string `"a:b"`), then a contextual group for `"a"` with only an `"x"`
entry is installed; `resolve("a", "b")` returns the cached object even
though the group has no `"b"` entry. -/
theorem C10_shared_cache_namespace_witness :
    Container.resolve (fun _ => ⟨"", none⟩) 1 (.str "a:b") none
        (Container.singleton St.empty "a:b" (.factoryConst ⟨5, none⟩)) =
      .ok (.obj ⟨5, none⟩,
        ⟨[("a:b", .plain ⟨.factoryConst ⟨5, none⟩, true⟩)],
         [(.str "a:b", ⟨5, none⟩)], 0, []⟩, 1)
    ∧ Container.context
        ⟨[("a:b", .plain ⟨.factoryConst ⟨5, none⟩, true⟩)],
         [(.str "a:b", ⟨5, none⟩)], 0, []⟩
        "a" "x" (.factoryFresh none) true =
      (⟨[("a:b", .plain ⟨.factoryConst ⟨5, none⟩, true⟩),
         ("a", .group [("x", ⟨.factoryFresh none, true⟩)])],
        [(.str "a:b", ⟨5, none⟩)], 0, []⟩, none)
    ∧ getA [("x", (⟨.factoryFresh none, true⟩ : BindingEntry))] "b" = none
    ∧ Container.resolve (fun _ => ⟨"", none⟩) 1 (.str "a") (some "b")
        ⟨[("a:b", .plain ⟨.factoryConst ⟨5, none⟩, true⟩),
          ("a", .group [("x", ⟨.factoryFresh none, true⟩)])],
         [(.str "a:b", ⟨5, none⟩)], 0, []⟩ =
      .ok (.obj ⟨5, none⟩,
        ⟨[("a:b", .plain ⟨.factoryConst ⟨5, none⟩, true⟩),
          ("a", .group [("x", ⟨.factoryFresh none, true⟩)])],
         [(.str "a:b", ⟨5, none⟩)], 0, []⟩, 0) :=
  ⟨rfl, rfl, rfl,
   C10_shared_cache_namespace (fun _ => ⟨"", none⟩) 1
     ⟨[("a:b", .plain ⟨.factoryConst ⟨5, none⟩, true⟩),
       ("a", .group [("x", ⟨.factoryFresh none, true⟩)])],
      [(.str "a:b", ⟨5, none⟩)], 0, []⟩
     "a" "b" [("x", ⟨.factoryFresh none, true⟩)] ⟨5, none⟩
     (by decide) (by decide) (by decide)⟩

end Snapx
